import Mathlib

/-!
Verification of the Polaris CPU bring-up and devtmpfs subsystems.

Shallow embedding of src/kernel/cpu/cpu.c and src/kernel/fs/devtmpfs.c.
Machine registers are modelled as natural numbers (64-bit values, with
explicit reduction modulo 2 ^ 64 or 2 ^ 32 where the C code truncates),
and each privileged-register access performed by cpu_init is recorded in
an event trace so that ordering properties ("in one update", "immediately
followed by") can be stated.
-/

namespace Polaris

/-- Result quadruple of one processor-identification query: the values
written to the a, b, c, d outputs of __get_cpuid. -/
structure FeatRegs where
  a : Nat
  b : Nat
  c : Nat
  d : Nat
deriving DecidableEq, Repr

/-- Capability oracle for one core: what the hardware reports for cpuid
leaf 1 and leaf 7, plus whether leaf 7 is supported at all.  When leaf 7
is unsupported, __get_cpuid(7, ...) returns 0 and leaves its output
variables unchanged; leaf 1 is supported on every x86-64 processor. -/
structure Cpuid where
  leaf1 : FeatRegs
  leaf7 : FeatRegs
  leaf7_supported : Bool
deriving DecidableEq, Repr

/-- bit_XSAVE from the compiler-provided cpuid.h header: leaf-1 ECX bit 26. -/
def bit_XSAVE : Nat := 1 <<< 26

/-- bit_AVX from the compiler-provided cpuid.h header: leaf-1 ECX bit 28. -/
def bit_AVX : Nat := 1 <<< 28

/-- bit_AVX512F from the compiler-provided cpuid.h header: leaf-7 EBX bit 16. -/
def bit_AVX512F : Nat := 1 <<< 16

/-- Modelled from the spec: the repository header cpu.h is not under src/,
so the CPUID_SMEP mask is taken from the spec's capability set
(supervisor-mode-execution-prevention), the architectural leaf-7 EBX bit 7. -/
def CPUID_SMEP : Nat := 1 <<< 7

/-- Modelled from the spec: the repository header cpu.h is not under src/,
so the CPUID_SMAP mask is taken from the spec's capability set
(supervisor-mode-access-prevention), the architectural leaf-7 EBX bit 20. -/
def CPUID_SMAP : Nat := 1 <<< 20

/-- Modelled from the spec: the repository header cpu.h is not under src/,
so the CPUID_UMIP mask is taken from the spec's capability set
(user-mode-instruction-prevention), the architectural leaf-7 ECX bit 2. -/
def CPUID_UMIP : Nat := 1 <<< 2

/-- Test performed by cpu.c line 125: leaf 7 answered and (b & CPUID_SMEP). -/
def smepAvail (cpu : Cpuid) : Bool :=
  cpu.leaf7_supported && (cpu.leaf7.b &&& CPUID_SMEP != 0)

/-- Test performed by cpu.c line 133: leaf 7 answered and (b & CPUID_SMAP). -/
def smapAvail (cpu : Cpuid) : Bool :=
  cpu.leaf7_supported && (cpu.leaf7.b &&& CPUID_SMAP != 0)

/-- Test performed by cpu.c line 142: leaf 7 answered and (c & CPUID_UMIP). -/
def umipAvail (cpu : Cpuid) : Bool :=
  cpu.leaf7_supported && (cpu.leaf7.c &&& CPUID_UMIP != 0)

/-- Test performed by cpu.c line 157: (c & bit_XSAVE) with c from leaf 1. -/
def xsaveAvail (cpu : Cpuid) : Bool :=
  cpu.leaf1.c &&& bit_XSAVE != 0

/-- Test performed by cpu.c line 166: (c & bit_AVX) with c still holding the
leaf-1 value (the leaf-7 re-query happens only afterwards, on line 169). -/
def avxAvail (cpu : Cpuid) : Bool :=
  cpu.leaf1.c &&& bit_AVX != 0

/-- Test performed by cpu.c lines 169-170: leaf 7 answered and (b & bit_AVX512F). -/
def avx512Avail (cpu : Cpuid) : Bool :=
  cpu.leaf7_supported && (cpu.leaf7.b &&& bit_AVX512F != 0)

/-- Value held by the local variable c at cpu.c line 178, where
cpu_fpu_storage_size is assigned (size_t)c: the line-169 leaf-7 query
overwrites c when leaf 7 is supported, otherwise c still holds the
leaf-1 ECX value read on line 156. -/
def storageSizeValue (cpu : Cpuid) : Nat :=
  if cpu.leaf7_supported then cpu.leaf7.c else cpu.leaf1.c

/-- The two functions the code can install as cpu_fpu_save. -/
inductive SaveRoutine where
  | xsave
  | fxsave
deriving DecidableEq, Repr

/-- The two functions the code can install as cpu_fpu_restore. -/
inductive RestoreRoutine where
  | xrstor
  | fxrstor
deriving DecidableEq, Repr

/-- Privileged machine state touched by cpu_init, together with the
process-wide extended-state bookkeeping (cpu_fpu_storage_size,
cpu_fpu_save, cpu_fpu_restore).  acFlag models the RFLAGS.AC bit that
the clac instruction clears.  pat is MSR 0x277. -/
structure MachineState where
  cr0 : Nat
  cr4 : Nat
  pat : Nat
  xcr0 : Nat
  acFlag : Bool
  fpu_storage_size : Nat
  fpu_save : Option SaveRoutine
  fpu_restore : Option RestoreRoutine
deriving DecidableEq, Repr

/-- One privileged-register access performed by cpu_init, recorded in
program order.  readCR n v / writeCR n v access control register n,
observing or installing value v; rdmsrE / wrmsrE access an MSR by number;
wrxcrE writes an extended control register; clacE is the clac instruction. -/
inductive Event where
  | readCR : Nat → Nat → Event
  | writeCR : Nat → Nat → Event
  | rdmsrE : Nat → Nat → Event
  | wrmsrE : Nat → Nat → Event
  | wrxcrE : Nat → Nat → Event
  | clacE : Event
deriving DecidableEq, Repr

/-- cpu.c lines 106-110: read CR0, clear bit 2 (EM), set bit 1 (MP),
write CR0 back.  The cleared mask is the 64-bit complement of (1 << 2). -/
def sseStep (s : MachineState) : MachineState × List Event :=
  let v := (s.cr0 &&& (2 ^ 64 - 1 - (1 <<< 2))) ||| (1 <<< 1)
  ({ s with cr0 := v }, [Event.readCR 0 s.cr0, Event.writeCR 0 v])

/-- One read-modify-write of CR4 that ORs in the mask m, the idiom used
throughout cpu_init (read_cr("4"); cr4 |= m; write_cr("4", cr4)). -/
def orCr4 (m : Nat) (st : MachineState × List Event) : MachineState × List Event :=
  let v := st.1.cr4 ||| m
  ({ st.1 with cr4 := v }, st.2 ++ [Event.readCR 4 st.1.cr4, Event.writeCR 4 v])

/-- The clac instruction (cpu.c line 137): clears the AC flag. -/
def clacStep (st : MachineState × List Event) : MachineState × List Event :=
  ({ st.1 with acFlag := false }, st.2 ++ [Event.clacE])

/-- cpu.c lines 124-130: if SMEP is reported, OR CR4 bit 20 in. -/
def smepStep (cpu : Cpuid) (st : MachineState × List Event) : MachineState × List Event :=
  if smepAvail cpu then orCr4 (1 <<< 20) st else st

/-- cpu.c lines 132-139: if SMAP is reported, OR CR4 bit 21 in and
immediately execute clac. -/
def smapStep (cpu : Cpuid) (st : MachineState × List Event) : MachineState × List Event :=
  if smapAvail cpu then clacStep (orCr4 (1 <<< 21) st) else st

/-- cpu.c lines 141-147: if UMIP is reported, OR CR4 bit 11 in. -/
def umipStep (cpu : Cpuid) (st : MachineState × List Event) : MachineState × List Event :=
  if umipAvail cpu then orCr4 (1 <<< 11) st else st

/-- cpu.c lines 149-154: read MSR 0x277, keep only the low 32 bits,
OR in 0x0105 shifted into the high half, and write the MSR back. -/
def patStep (st : MachineState × List Event) : MachineState × List Event :=
  let v := (st.1.pat &&& 0xFFFFFFFF) ||| (0x0105 <<< 32)
  ({ st.1 with pat := v }, st.2 ++ [Event.rdmsrE 0x277 st.1.pat, Event.wrmsrE 0x277 v])

/-- Value accumulated in the local variable xcr0 by cpu.c lines 162-175:
x87 and SSE bits always, the AVX bit when its leaf-1 capability bit is
set, the three AVX-512 component bits when leaf 7 reports bit_AVX512F. -/
def xcr0Value (cpu : Cpuid) : Nat :=
  let x0 := (0 ||| (1 <<< 0)) ||| (1 <<< 1)
  let x1 := if avxAvail cpu then x0 ||| (1 <<< 2) else x0
  if avx512Avail cpu then ((x1 ||| (1 <<< 5)) ||| (1 <<< 6)) ||| (1 <<< 7) else x1

/-- cpu.c lines 156-186: re-query leaf 1; if bit_XSAVE is set, OR CR4
bit 18 in, write the assembled XCR0 enable mask, record (size_t)c as the
storage size and install xsave/xrstor; otherwise record 512 and install
fxsave/fxrstor. -/
def xsaveStep (cpu : Cpuid) (st : MachineState × List Event) : MachineState × List Event :=
  if xsaveAvail cpu then
    let st1 := orCr4 (1 <<< 18) st
    ({ st1.1 with
        xcr0 := xcr0Value cpu
        fpu_storage_size := storageSizeValue cpu
        fpu_save := some SaveRoutine.xsave
        fpu_restore := some RestoreRoutine.xrstor },
     st1.2 ++ [Event.wrxcrE 0 (xcr0Value cpu)])
  else
    ({ st.1 with
        fpu_storage_size := 512
        fpu_save := some SaveRoutine.fxsave
        fpu_restore := some RestoreRoutine.fxrstor }, st.2)

/-- cpu.c lines 104-187: the per-core initialization sequence, as the
composition of its strictly ordered steps, returning the final machine
state and the trace of privileged-register accesses. -/
def cpu_init (cpu : Cpuid) (s : MachineState) : MachineState × List Event :=
  xsaveStep cpu (patStep (umipStep cpu (smapStep cpu
    (smepStep cpu (orCr4 (1 <<< 2) (orCr4 (3 <<< 9) (sseStep s)))))))

/-- Machine state with all registers zero and the AC flag raised (the
worst case for the claim that cpu_init leaves it cleared). -/
def ms0 : MachineState :=
  { cr0 := 0, cr4 := 0, pat := 0, xcr0 := 0, acFlag := true
    fpu_storage_size := 0, fpu_save := none, fpu_restore := none }

/-- Capability oracle reporting no optional feature at all. -/
def cpuMin : Cpuid :=
  { leaf1 := ⟨0, 0, 0, 0⟩, leaf7 := ⟨0, 0, 0, 0⟩, leaf7_supported := false }

/-- Capability oracle reporting every feature this subsystem branches on. -/
def cpuAll : Cpuid :=
  { leaf1 := ⟨0, 0, bit_XSAVE ||| bit_AVX, 0⟩
    leaf7 := ⟨0, CPUID_SMEP ||| CPUID_SMAP ||| bit_AVX512F, CPUID_UMIP, 0⟩
    leaf7_supported := true }

/-- Values written to CR4 by a trace, in program order. -/
def cr4Writes : List Event → List Nat
  | [] => []
  | Event.writeCR i v :: rest => if i = 4 then v :: cr4Writes rest else cr4Writes rest
  | _ :: rest => cr4Writes rest

/-- Accumulation invariant relating an initial CR4 value to a state and
its trace: every bit of the initial value and of every CR4 value written
so far is contained in the current CR4 value. -/
def Cr4Accum (c0 : Nat) (st : MachineState × List Event) : Prop :=
  (∀ b, c0.testBit b = true → st.1.cr4.testBit b = true) ∧
  (∀ v ∈ cr4Writes st.2, ∀ b, v.testBit b = true → st.1.cr4.testBit b = true)

/-- Check whether two consecutive events are a CR4 write whose installed
value has bit 21 (SMAP) set, immediately followed by clac. -/
def smapClacPair (e e2 : Event) : Bool :=
  match e, e2 with
  | Event.writeCR i v, Event.clacE => i == 4 && v.testBit 21
  | _, _ => false

/-- True when somewhere in the trace a CR4 write installing bit 21 is
immediately followed by the clac instruction. -/
def adjSmapClac : List Event → Bool
  | [] => false
  | e :: rest =>
    (match rest with
     | e2 :: _ => smapClacPair e e2
     | [] => false) || adjSmapClac rest

/-- True when the trace contains a single CR4 write that installs the
global-page bit (7), both vector-extension state bits (9 and 10) and the
time-stamp-counter restriction bit (2) at once. -/
def allFourInOneUpdate (t : List Event) : Bool :=
  t.any fun e =>
    match e with
    | Event.writeCR i v =>
        i == 4 && v.testBit 7 && v.testBit 9 && v.testBit 10 && v.testBit 2
    | _ => false

/-- True when the trace starts with the CR0 access pair followed by one
CR4 read-modify-write that ORs in (3 << 9) and a second, separate CR4
read-modify-write that ORs in (1 << 2). -/
def step2Pattern : List Event → Bool
  | _ :: _ :: Event.readCR 4 x :: Event.writeCR 4 v ::
      Event.readCR 4 y :: Event.writeCR 4 w :: _ =>
    (v == x ||| (3 <<< 9)) && (y == v) && (w == y ||| (1 <<< 2))
  | _ => false

/-- Count of enabled XCR0 state components above the AVX bit, i.e. the
number of set bits with index greater than 2 (the 64-bit register has no
bits past index 63). -/
def extraComponents (x : Nat) : Nat :=
  ((List.range 64).filter fun b => 2 < b && x.testBit b).length

/-! ## Multiprocessor bootstrap coordinator (cpu.c lines 92-102) -/

/-- The only entry address smp_init publishes: the secondary-core
trampoline cpu_start (cpu.c line 98). -/
inductive EntryPoint where
  | cpu_start
deriving DecidableEq, Repr

/-- One stivale2 SMP descriptor, restricted to the fields smp_init reads
or writes. -/
structure SmpInfo where
  processor_id : Nat
  lapic_id : Nat
  target_stack : Nat
  goto_address : Option EntryPoint
deriving DecidableEq, Repr

/-- Size of the local variable stack in smp_init.  Its type is uint8_t*,
so sizeof(stack) on x86-64 is the size of a pointer: 8 bytes. -/
def sizeofStackPtr : Nat := 8

/-- Loop body of smp_init (cpu.c lines 95-99) over the descriptor list:
the i-th iteration requests one allocation of 32768 bytes (the allocator
is modelled by the function allocBase giving the base address of the i-th
allocation), stores base + sizeof(stack) into target_stack (a uintptr_t,
hence the reduction modulo 2 ^ 64) and publishes cpu_start as the entry
address.  Returns the updated descriptors and the list of requested
allocation sizes in order. -/
def smpLoop (allocBase : Nat → Nat) : Nat → List SmpInfo → List SmpInfo × List Nat
  | _, [] => ([], [])
  | i, info :: rest =>
    let stack := allocBase i
    let info2 := { info with
      target_stack := (stack + sizeofStackPtr) % 2 ^ 64
      goto_address := some EntryPoint.cpu_start }
    let r := smpLoop allocBase (i + 1) rest
    (info2 :: r.1, 32768 :: r.2)

/-- cpu.c lines 92-102: update every boot-reported descriptor.  The
trailing hpet_usleep(50000) only delays and is not modelled. -/
def smp_init (cpus : List SmpInfo) (allocBase : Nat → Nat) : List SmpInfo × List Nat :=
  smpLoop allocBase 0 cpus

/-! ## devtmpfs_write growth loop (devtmpfs.c lines 73-90) -/

/-- Growth loop of devtmpfs_write (devtmpfs.c lines 79-80): while
off + count > allocated_size, double allocated_size.  allocated_size is
a size_t, so the doubling wraps modulo 2 ^ 64.  The loop is modelled
with fuel; none means the fuel ran out before the loop exited (once the
doubled value wraps to 0 it stays 0, so fuel 65 decides termination for
any allocated_size below 2 ^ 64). -/
def growLoop : Nat → Nat → Nat → Option Nat
  | 0, _, _ => none
  | fuel + 1, a, need => if need > a then growLoop fuel ((a * 2) % 2 ^ 64) need else some a

/-- The fields of struct tmpfs_resource that devtmpfs_write touches. -/
structure TmpfsSt where
  allocated_size : Nat
  st_size : Int
deriving DecidableEq, Repr

/-- devtmpfs.c lines 73-90: off is an off_t (signed 64-bit); the C
comparison off + count > allocated_size converts it to size_t, so the
model takes off modulo 2 ^ 64 and the sum again modulo 2 ^ 64.  When the
growth loop exits, the data is copied, st_size is increased by count and
count is returned; when the loop diverges the call never returns (none). -/
def devtmpfs_write (fuel : Nat) (r : TmpfsSt) (off : Int) (count : Nat) :
    Option (TmpfsSt × Nat) :=
  let offU : Nat := (off % (2 ^ 64 : Int)).toNat
  let need : Nat := (offU + count) % 2 ^ 64
  match (if need > r.allocated_size then growLoop fuel r.allocated_size need
         else some r.allocated_size) with
  | none => none
  | some a => some ({ allocated_size := a, st_size := r.st_size + (count : Int) }, count)

/-! ## Trampoline mutual exclusion (cpu.c lines 79-90)

Modelled from the spec: the LOCK/UNLOCK primitives of klibc/lock.h are
not under src/, so the InitializationLock is modelled per spec sections 3
and 5 as a process-wide mutual-exclusion primitive acquired atomically
(test-and-set): a core may enter the protected region only when the lock
is free, taking it in the same step, and releases it on leaving. -/

/-- Position of one core in the trampoline cpu_start: before the LOCK,
inside the protected region (cpu_init, lapic_init, the readiness
announcement), or parked in the final halt loop after UNLOCK. -/
inductive CorePhase where
  | idle
  | inRegion
  | halted
deriving DecidableEq, Repr

/-- Shared state of the n concurrently booting cores: the
InitializationLock and each core's phase. -/
structure TrampState (n : Nat) where
  lock : Bool
  phase : Fin n → CorePhase

/-- Boot state: the lock is free and every core is before its LOCK. -/
def trampInit (n : Nat) : TrampState n :=
  { lock := false, phase := fun _ => CorePhase.idle }

/-- Interleaving semantics of the trampoline: an idle core atomically
acquires the free lock and enters the region; a core in the region
releases the lock and parks. -/
inductive TrampStep {n : Nat} : TrampState n → TrampState n → Prop
  | acquire (s : TrampState n) (i : Fin n)
      (hp : s.phase i = CorePhase.idle) (hl : s.lock = false) :
      TrampStep s { lock := true, phase := Function.update s.phase i CorePhase.inRegion }
  | release (s : TrampState n) (i : Fin n)
      (hp : s.phase i = CorePhase.inRegion) :
      TrampStep s { lock := false, phase := Function.update s.phase i CorePhase.halted }

/-- States reachable from boot by any interleaving of core steps. -/
def TrampReachable {n : Nat} (s : TrampState n) : Prop :=
  Relation.ReflTransGen TrampStep (trampInit n) s

/-- Capability oracle with XSAVE present and leaf 7 supported, whose
leaf-7 ECX value happens to be 512.  The code stores exactly that
register as cpu_fpu_storage_size. -/
def cpuC1 : Cpuid :=
  { leaf1 := ⟨0, 0, bit_XSAVE, 0⟩, leaf7 := ⟨0, 0, 512, 0⟩, leaf7_supported := true }

/-- Capability oracle with XSAVE present but without any wide-vector
capability: no AVX bit, and leaf 7 (hence AVX-512) unsupported. -/
def cpuC2 : Cpuid :=
  { leaf1 := ⟨0, 0, bit_XSAVE, 0⟩, leaf7 := ⟨0, 0, 0, 0⟩, leaf7_supported := false }

/-- Mutual-exclusion invariant of the trampoline system: a core inside
the protected region implies the lock is held, and at most one core is
inside the region. -/
def MutexInv {n : Nat} (s : TrampState n) : Prop :=
  (∀ i, s.phase i = CorePhase.inRegion → s.lock = true) ∧
  (∀ i j, s.phase i = CorePhase.inRegion → s.phase j = CorePhase.inRegion → i = j)

/-- Two-core trampoline state in which core 0 has just acquired the
InitializationLock and entered the protected region. -/
def tramp1 : TrampState 2 :=
  { lock := true, phase := Function.update (trampInit 2).phase 0 CorePhase.inRegion }

example : (cpu_init cpuMin ms0).1.fpu_storage_size = 512 := by decide
example : (cpu_init cpuMin ms0).1.cr4 = 0x604 := by decide
example : (cpu_init cpuAll ms0).1.xcr0 = 0xE7 := by decide
example : (cpu_init cpuAll ms0).1.acFlag = false := by decide
example : adjSmapClac (cpu_init cpuAll ms0).2 = true := by decide
example : allFourInOneUpdate (cpu_init cpuAll ms0).2 = false := by decide
example : step2Pattern (cpu_init cpuAll ms0).2 = true := by decide
example : extraComponents 0xE7 = 3 := by decide
example : smp_init [⟨0, 0, 0, none⟩] (fun _ => 4096) =
    ([⟨0, 0, 4104, some EntryPoint.cpu_start⟩], [32768]) := by decide
example : devtmpfs_write 65 ⟨4096, 0⟩ 0 5000 = some (⟨8192, 5000⟩, 5000) := by decide

/-! ## Claim theorems -/

/-- C1 (code bug): on the capability set cpuC1, where the save/restore
extension (XSAVE) is present, cpu_init installs cpu_fpu_storage_size
equal to the leaf-7 ECX feature register (the local variable c was
overwritten by the line-169 leaf-7 query before line 178 stores it), not
to any hardware-reported buffer size, and here that value is exactly the
legacy size 512 which the claim excludes. -/
theorem C1_storage_size_eval :
    xsaveAvail cpuC1 = true ∧
    (cpu_init cpuC1 ms0).1.fpu_storage_size = 512 ∧
    (cpu_init cpuC1 ms0).1.fpu_storage_size = cpuC1.leaf7.c := by decide

/-- C2 (counterexample): on the capability set cpuC2 the wide-vector
bits (AVX and AVX-512) are absent, yet cpu_init does not install the
legacy configuration: the code branches on XSAVE, which cpuC2 reports,
so the modern pair is installed and the size is not 512. -/
theorem C2_counterexample :
    avxAvail cpuC2 = false ∧ avx512Avail cpuC2 = false ∧
    ¬ ((cpu_init cpuC2 ms0).1.fpu_storage_size = 512 ∧
       (cpu_init cpuC2 ms0).1.fpu_save = some SaveRoutine.fxsave ∧
       (cpu_init cpuC2 ms0).1.fpu_restore = some RestoreRoutine.fxrstor) := by decide

/-- C2 (amended): for every capability set in which the save/restore
extension (XSAVE) bit is absent, cpu_init installs buffer size exactly
512 and the legacy pair fxsave / fxrstor. -/
theorem C2_legacy_pair (cpu : Cpuid) (s : MachineState) (h : xsaveAvail cpu = false) :
    (cpu_init cpu s).1.fpu_storage_size = 512 ∧
    (cpu_init cpu s).1.fpu_save = some SaveRoutine.fxsave ∧
    (cpu_init cpu s).1.fpu_restore = some RestoreRoutine.fxrstor := by
  unfold cpu_init xsaveStep
  simp [h]

/-- Witness for C2_legacy_pair at the featureless capability set. -/
theorem C2_legacy_pair_witness :
    (cpu_init cpuMin ms0).1.fpu_storage_size = 512 ∧
    (cpu_init cpuMin ms0).1.fpu_save = some SaveRoutine.fxsave ∧
    (cpu_init cpuMin ms0).1.fpu_restore = some RestoreRoutine.fxrstor :=
  C2_legacy_pair cpuMin ms0 (by decide)

/-- C3 (code bug): for a one-core boot list whose stack allocation is
based at 4096, smp_init does request one 32768-byte allocation and does
publish the cpu_start trampoline, but the published entry stack pointer
is base + 8 (sizeof of the uint8_t* variable), not base + 32768. -/
theorem C3_stack_top_eval :
    smp_init [⟨0, 0, 0, none⟩] (fun _ => 4096) =
      ([⟨0, 0, 4104, some EntryPoint.cpu_start⟩], [32768]) ∧
    (4104 : Nat) ≠ 4096 + 32768 := by decide

/-- Any terminating run of the devtmpfs_write growth loop ends with the
compared (wrapped) byte requirement within the grown allocation. -/
theorem growLoop_le (fuel a need a2 : Nat) (h : growLoop fuel a need = some a2) :
    need ≤ a2 := by
  induction fuel generalizing a with
  | zero => simp [growLoop] at h
  | succ f ih =>
    rw [growLoop] at h
    split at h
    · exact ih _ h
    · rename_i hle
      injection h with h2
      omega

/-- C10 (counterexample): with allocated_size 4096 positive, offset
2 ^ 63 - 1 and count 2 ^ 63 + 4097, the size_t sum off + count wraps to
4096, so the growth loop exits immediately, yet off + count exceeds the
allocation, and the subsequent memcpy of count bytes at offset off is
far outside the 4096-byte buffer. -/
theorem C10_counterexample :
    (0 : Nat) < 4096 ∧
    devtmpfs_write 65 ⟨4096, 0⟩ (2 ^ 63 - 1) (2 ^ 63 + 4097) =
      some (⟨4096, 2 ^ 63 + 4097⟩, 2 ^ 63 + 4097) ∧
    ¬ ((2 ^ 63 - 1 : Int).toNat + (2 ^ 63 + 4097) ≤ 4096) := by decide

/-- C10 (amended): for every call on a resource with positive
allocated_size, provided the offset is non-negative and off + count does
not wrap modulo 2 ^ 64, whenever the growth loop completes the resulting
allocation satisfies off + count <= allocated_size, so the copy of count
bytes at offset off stays inside the data buffer. -/
theorem C10_growth_bound (fuel : Nat) (r : TmpfsSt) (off : Int) (count : Nat)
    (r2 : TmpfsSt) (n : Nat) (hpos : 0 < r.allocated_size) (hoff : 0 ≤ off)
    (hsum : off.toNat + count < 2 ^ 64)
    (h : devtmpfs_write fuel r off count = some (r2, n)) :
    off.toNat + count ≤ r2.allocated_size := by
  have hlt : off < (2 ^ 64 : Int) := by omega
  have hoffmod : (off % (2 ^ 64 : Int)).toNat = off.toNat := by
    rw [Int.emod_eq_of_lt hoff hlt]
  simp only [devtmpfs_write] at h
  rw [hoffmod, Nat.mod_eq_of_lt hsum] at h
  split at h
  · simp at h
  · rename_i a heq
    injection h with h2
    injection h2 with ha hb
    subst ha
    show off.toNat + count ≤ a
    split at heq
    · exact growLoop_le fuel r.allocated_size _ a heq
    · rename_i hng
      injection heq with h3
      omega

/-- Witness for C10_growth_bound: writing 5000 bytes at offset 3 into a
4096-byte resource doubles the allocation once, to 8192, and the write
fits. -/
theorem C10_growth_bound_witness : (3 : Int).toNat + 5000 ≤ (8192 : Nat) :=
  C10_growth_bound 65 ⟨4096, 0⟩ 3 5000 ⟨8192, 5000⟩ 5000 (by decide) (by decide)
    (by decide) (by decide)

/-- Boot state satisfies the mutual-exclusion invariant. -/
theorem trampInit_inv (n : Nat) : MutexInv (trampInit n) := by
  constructor
  · intro i h
    simp [trampInit] at h
  · intro i j hi _
    simp [trampInit] at hi

/-- Every trampoline step preserves the mutual-exclusion invariant. -/
theorem trampStep_inv {n : Nat} {s s2 : TrampState n} (h : MutexInv s)
    (hs : TrampStep s s2) : MutexInv s2 := by
  cases hs with
  | acquire i hp hl =>
    have noOne : ∀ l, s.phase l = CorePhase.inRegion → False := by
      intro l hl2
      have hlock := h.1 l hl2
      rw [hl] at hlock
      exact Bool.noConfusion hlock
    constructor
    · intro j _
      rfl
    · intro j k hj hk
      have hj2 : Function.update s.phase i CorePhase.inRegion j = CorePhase.inRegion := hj
      have hk2 : Function.update s.phase i CorePhase.inRegion k = CorePhase.inRegion := hk
      rcases eq_or_ne j i with rfl | hji
      · rcases eq_or_ne k j with rfl | hkj
        · rfl
        · rw [Function.update_noteq hkj] at hk2
          exact absurd hk2 (fun hc => noOne k hc)
      · rw [Function.update_noteq hji] at hj2
        exact absurd hj2 (fun hc => noOne j hc)
  | release i hp =>
    have noOne : ∀ l, Function.update s.phase i CorePhase.halted l = CorePhase.inRegion → False := by
      intro l hl2
      rcases eq_or_ne l i with rfl | hli
      · rw [Function.update_same] at hl2
        exact CorePhase.noConfusion hl2
      · rw [Function.update_noteq hli] at hl2
        exact hli (h.2 l i hl2 hp)
    constructor
    · intro j hj
      exact absurd
        (show Function.update s.phase i CorePhase.halted j = CorePhase.inRegion from hj)
        (fun hc => noOne j hc)
    · intro j k hj _
      exact absurd
        (show Function.update s.phase i CorePhase.halted j = CorePhase.inRegion from hj)
        (fun hc => noOne j hc)

/-- Every reachable trampoline state satisfies the invariant. -/
theorem tramp_reachable_inv {n : Nat} {s : TrampState n} (h : TrampReachable s) :
    MutexInv s := by
  induction h with
  | refl => exact trampInit_inv n
  | tail _ hstep ih => exact trampStep_inv ih hstep

/-- C8: in every state reachable from boot under concurrent interleaved
execution of the cpu_start trampoline, no two distinct cores are inside
the InitializationLock-protected region at the same time. -/
theorem C8_mutual_exclusion {n : Nat} (s : TrampState n) (h : TrampReachable s)
    (i j : Fin n) (hi : s.phase i = CorePhase.inRegion)
    (hj : s.phase j = CorePhase.inRegion) : i = j :=
  (tramp_reachable_inv h).2 i j hi hj

/-- Witness for C8_mutual_exclusion at the reachable two-core state in
which core 0 holds the lock and is inside the region. -/
theorem C8_mutual_exclusion_witness : (0 : Fin 2) = 0 :=
  C8_mutual_exclusion tramp1
    (Relation.ReflTransGen.tail Relation.ReflTransGen.refl
      (TrampStep.acquire (trampInit 2) 0 rfl rfl))
    0 0 (by simp [tramp1]) (by simp [tramp1])

/-- The PAT MSR value cpu_init leaves behind: the initial low half with
0x0105 in the high half, independently of the capability set. -/
theorem cpu_init_pat (cpu : Cpuid) (s : MachineState) :
    (cpu_init cpu s).1.pat = (s.pat &&& 0xFFFFFFFF) ||| (0x0105 <<< 32) := by
  cases h1 : smepAvail cpu <;> cases h2 : smapAvail cpu <;> cases h3 : umipAvail cpu <;>
    cases h4 : xsaveAvail cpu <;>
    simp [cpu_init, sseStep, orCr4, clacStep, smepStep, smapStep, umipStep, patStep,
      xsaveStep, h1, h2, h3, h4]

/-- The CR4 value cpu_init leaves behind: the initial value ORed with
the unconditional masks and with one mask per available capability. -/
theorem cpu_init_cr4 (cpu : Cpuid) (s : MachineState) :
    (cpu_init cpu s).1.cr4 =
      ((((((s.cr4 ||| (3 <<< 9)) ||| (1 <<< 2))
        ||| (if smepAvail cpu then 1 <<< 20 else 0))
        ||| (if smapAvail cpu then 1 <<< 21 else 0))
        ||| (if umipAvail cpu then 1 <<< 11 else 0))
        ||| (if xsaveAvail cpu then 1 <<< 18 else 0)) := by
  cases h1 : smepAvail cpu <;> cases h2 : smapAvail cpu <;> cases h3 : umipAvail cpu <;>
    cases h4 : xsaveAvail cpu <;>
    simp [cpu_init, sseStep, orCr4, clacStep, smepStep, smapStep, umipStep, patStep,
      xsaveStep, h1, h2, h3, h4, Nat.or_zero]

/-- The XCR0 register is written exactly when XSAVE is available, with
the assembled component mask. -/
theorem cpu_init_xcr0 (cpu : Cpuid) (s : MachineState) :
    (cpu_init cpu s).1.xcr0 = (if xsaveAvail cpu then xcr0Value cpu else s.xcr0) := by
  cases h1 : smepAvail cpu <;> cases h2 : smapAvail cpu <;> cases h3 : umipAvail cpu <;>
    cases h4 : xsaveAvail cpu <;>
    simp [cpu_init, sseStep, orCr4, clacStep, smepStep, smapStep, umipStep, patStep,
      xsaveStep, h1, h2, h3, h4]

/-- C4: the page-attribute-table step preserves the PAT MSR's low 32
bits bit-for-bit and sets its high 32 bits to exactly 0x00000105; no
later step of cpu_init touches the MSR again, so the final state shows
the effect of that step. -/
theorem C4_pat_low_preserved_high_fixed (cpu : Cpuid) (s : MachineState) :
    (∀ i, i < 32 → (cpu_init cpu s).1.pat.testBit i = s.pat.testBit i) ∧
    (cpu_init cpu s).1.pat >>> 32 = 0x105 := by
  have hmask : (0xFFFFFFFF : Nat) = 2 ^ 32 - 1 := by norm_num
  constructor
  · intro i hi
    have hle : ¬ (32 ≤ i) := by omega
    rw [cpu_init_pat]
    rw [Nat.testBit_or, Nat.testBit_and, Nat.testBit_shiftLeft, hmask,
      Nat.testBit_two_pow_sub_one]
    simp [hi, hle]
  · rw [cpu_init_pat]
    apply Nat.eq_of_testBit_eq
    intro i
    have h1 : ¬ (32 + i < 32) := by omega
    have h2 : 32 ≤ 32 + i := by omega
    have h3 : 32 + i - 32 = i := by omega
    rw [Nat.testBit_shiftRight, Nat.testBit_or, Nat.testBit_and, Nat.testBit_shiftLeft,
      hmask, Nat.testBit_two_pow_sub_one, h3]
    simp [h1, h2]

/-- Witness for C4 at a concrete capability set and PAT value. -/
theorem C4_pat_witness :
    (cpu_init cpuAll { ms0 with pat := 0x12345678 }).1.pat.testBit 6 =
      ({ ms0 with pat := 0x12345678 } : MachineState).pat.testBit 6 :=
  (C4_pat_low_preserved_high_fixed cpuAll { ms0 with pat := 0x12345678 }).1 6 (by decide)

/-- C5: whenever supervisor-mode-access-prevention is reported by the
feature probe, cpu_init enables CR4 bit 21, the very next recorded event
after that CR4 write is the clac instruction, and the transient access
allowed flag is false from that step on, in particular in the final
state. -/
theorem C5_smap_then_clac (cpu : Cpuid) (s : MachineState) (h : smapAvail cpu = true) :
    (cpu_init cpu s).1.cr4.testBit 21 = true ∧
    (cpu_init cpu s).1.acFlag = false ∧
    adjSmapClac (cpu_init cpu s).2 = true := by
  have hb21 : Nat.testBit 2097152 21 = true := by decide
  cases h1 : smepAvail cpu <;> cases h3 : umipAvail cpu <;> cases h4 : xsaveAvail cpu <;>
    simp [cpu_init, sseStep, orCr4, clacStep, smepStep, smapStep, umipStep, patStep,
      xsaveStep, h, h1, h3, h4, adjSmapClac, smapClacPair, Nat.testBit_or, hb21]

/-- Witness for C5 at the all-features capability set. -/
theorem C5_smap_then_clac_witness :
    (cpu_init cpuAll ms0).1.cr4.testBit 21 = true ∧
    (cpu_init cpuAll ms0).1.acFlag = false ∧
    adjSmapClac (cpu_init cpuAll ms0).2 = true :=
  C5_smap_then_clac cpuAll ms0 (by decide)

/-- C6 (counterexample): on the all-features capability set the written
XCR0 mask enables three state components above the AVX bit (bits 5, 6
and 7), not exactly two as the claim states. -/
theorem C6_counterexample :
    avx512Avail cpuAll = true ∧
    (cpu_init cpuAll ms0).1.xcr0 = 0xE7 ∧
    extraComponents (cpu_init cpuAll ms0).1.xcr0 = 3 := by decide

/-- C6 (amended): when XSAVE is available, the written XCR0 value
contains exactly these bits: the x87 and SSE components always, the AVX
component exactly when the AVX capability bit is present, and the three
AVX-512 components (bits 5, 6 and 7) exactly when the AVX-512 extension
bit is present. -/
theorem C6_xcr0_components (cpu : Cpuid) (s : MachineState) (h : xsaveAvail cpu = true)
    (b : Nat) :
    ((cpu_init cpu s).1.xcr0.testBit b = true ↔
      (b = 0 ∨ b = 1 ∨ (b = 2 ∧ avxAvail cpu = true) ∨
       ((b = 5 ∨ b = 6 ∨ b = 7) ∧ avx512Avail cpu = true))) := by
  have hx : (cpu_init cpu s).1.xcr0 = xcr0Value cpu := by simp [cpu_init_xcr0, h]
  rw [hx]
  rcases Nat.lt_or_ge b 8 with hb | hb
  · cases ha : avxAvail cpu <;> cases h5 : avx512Avail cpu <;>
      (interval_cases b <;> simp [xcr0Value, ha, h5] <;> decide)
  · have hlt : xcr0Value cpu < 2 ^ 8 := by
      cases ha : avxAvail cpu <;> cases h5 : avx512Avail cpu <;> simp [xcr0Value, ha, h5]
    have hfalse : Nat.testBit (xcr0Value cpu) b = false :=
      Nat.testBit_lt_two_pow (lt_of_lt_of_le hlt (Nat.pow_le_pow_right (by norm_num) hb))
    rw [hfalse]
    simp only [Bool.false_eq_true, false_iff]
    intro hc
    rcases hc with rfl | rfl | ⟨rfl, -⟩ | ⟨hbb, -⟩
    · omega
    · omega
    · omega
    · rcases hbb with rfl | rfl | rfl <;> omega

/-- Witness for C6_xcr0_components at the all-features set and bit 6. -/
theorem C6_xcr0_components_witness :
    ((cpu_init cpuAll ms0).1.xcr0.testBit 6 = true ↔
      ((6 : Nat) = 0 ∨ (6 : Nat) = 1 ∨ ((6 : Nat) = 2 ∧ avxAvail cpuAll = true) ∨
       (((6 : Nat) = 5 ∨ (6 : Nat) = 6 ∨ (6 : Nat) = 7) ∧ avx512Avail cpuAll = true))) :=
  C6_xcr0_components cpuAll ms0 (by decide) 6

/-- C7 (counterexample): on the featureless capability set no single
CR4 write in the cpu_init trace installs the global-page bit, the two
vector-extension state bits and the TSC restriction bit together, and
the global-page bit is not even set in the final CR4 value. -/
theorem C7_counterexample :
    allFourInOneUpdate (cpu_init cpuMin ms0).2 = false ∧
    (cpu_init cpuMin ms0).1.cr4.testBit 7 = false := by decide

/-- C7 (amended): cpu_init performs one CR4 read-modify-write that ORs
in the two vector-extension state bits (3 << 9) and a second, separate,
immediately following CR4 read-modify-write that ORs in the TSC
restriction bit (1 << 2); the global-page bit (7) is never modified. -/
theorem C7_cr4_update_structure (cpu : Cpuid) (s : MachineState) :
    step2Pattern (cpu_init cpu s).2 = true ∧
    (cpu_init cpu s).1.cr4.testBit 7 = s.cr4.testBit 7 := by
  have e1 : Nat.testBit 1536 7 = false := by decide
  have e2 : Nat.testBit 4 7 = false := by decide
  have e3 : Nat.testBit 1048576 7 = false := by decide
  have e4 : Nat.testBit 2097152 7 = false := by decide
  have e5 : Nat.testBit 2048 7 = false := by decide
  have e6 : Nat.testBit 262144 7 = false := by decide
  have e0 : Nat.testBit 0 7 = false := by decide
  constructor
  · cases h1 : smepAvail cpu <;> cases h2 : smapAvail cpu <;> cases h3 : umipAvail cpu <;>
      cases h4 : xsaveAvail cpu <;>
      simp [cpu_init, sseStep, orCr4, clacStep, smepStep, smapStep, umipStep, patStep,
        xsaveStep, step2Pattern, h1, h2, h3, h4]
  · rw [cpu_init_cr4]
    cases h1 : smepAvail cpu <;> cases h2 : smapAvail cpu <;> cases h3 : umipAvail cpu <;>
      cases h4 : xsaveAvail cpu <;>
      simp [h1, h2, h3, h4, Nat.testBit_or, e1, e2, e3, e4, e5, e6, e0]

/-- CR4-write extraction distributes over trace concatenation. -/
theorem cr4Writes_append (t1 t2 : List Event) :
    cr4Writes (t1 ++ t2) = cr4Writes t1 ++ cr4Writes t2 := by
  induction t1 with
  | nil => simp [cr4Writes]
  | cons e rest ih =>
    cases e with
    | writeCR i v =>
      rw [List.cons_append, cr4Writes, cr4Writes, ih]
      split <;> simp
    | readCR a v => rw [List.cons_append, cr4Writes, cr4Writes, ih] <;> simp
    | rdmsrE a v => rw [List.cons_append, cr4Writes, cr4Writes, ih] <;> simp
    | wrmsrE a v => rw [List.cons_append, cr4Writes, cr4Writes, ih] <;> simp
    | wrxcrE a v => rw [List.cons_append, cr4Writes, cr4Writes, ih] <;> simp
    | clacE => rw [List.cons_append, cr4Writes, cr4Writes, ih] <;> simp

/-- Appending a clac event adds no CR4 write. -/
theorem cr4Writes_clac (t : List Event) :
    cr4Writes (t ++ [Event.clacE]) = cr4Writes t := by
  rw [cr4Writes_append]; simp [cr4Writes]

/-- Appending an MSR access pair adds no CR4 write. -/
theorem cr4Writes_msr (t : List Event) (a v w : Nat) :
    cr4Writes (t ++ [Event.rdmsrE a v, Event.wrmsrE a w]) = cr4Writes t := by
  rw [cr4Writes_append]; simp [cr4Writes]

/-- Appending an XCR write adds no CR4 write. -/
theorem cr4Writes_xcr (t : List Event) (i v : Nat) :
    cr4Writes (t ++ [Event.wrxcrE i v]) = cr4Writes t := by
  rw [cr4Writes_append]; simp [cr4Writes]

/-- The CR4 write recorded by orCr4 is the ORed value. -/
theorem cr4Writes_orCr4 (m : Nat) (st : MachineState × List Event) :
    cr4Writes (orCr4 m st).2 = cr4Writes st.2 ++ [st.1.cr4 ||| m] := by
  show cr4Writes (st.2 ++ [Event.readCR 4 st.1.cr4, Event.writeCR 4 (st.1.cr4 ||| m)]) = _
  rw [cr4Writes_append]
  simp [cr4Writes]

/-- A step that neither changes CR4 nor records a CR4 write preserves
the accumulation invariant. -/
theorem cr4Accum_keep (c0 : Nat) (st st2 : MachineState × List Event)
    (hcr4 : st2.1.cr4 = st.1.cr4) (htr : cr4Writes st2.2 = cr4Writes st.2)
    (h : Cr4Accum c0 st) : Cr4Accum c0 st2 := by
  constructor
  · intro b hb
    rw [hcr4]
    exact h.1 b hb
  · intro v hv b hb
    rw [hcr4]
    exact h.2 v (htr ▸ hv) b hb

/-- An orCr4 step preserves the accumulation invariant. -/
theorem cr4Accum_orCr4 (m c0 : Nat) (st : MachineState × List Event)
    (h : Cr4Accum c0 st) : Cr4Accum c0 (orCr4 m st) := by
  constructor
  · intro b hb
    show (st.1.cr4 ||| m).testBit b = true
    simp [Nat.testBit_or, h.1 b hb]
  · intro v hv b hb
    rw [cr4Writes_orCr4] at hv
    rcases List.mem_append.mp hv with hv1 | hv2
    · show (st.1.cr4 ||| m).testBit b = true
      simp [Nat.testBit_or, h.2 v hv1 b hb]
    · have hveq : v = st.1.cr4 ||| m := by simpa using hv2
      subst hveq
      exact hb

/-- The whole cpu_init sequence satisfies the accumulation invariant
with respect to the initial CR4 value. -/
theorem cpu_init_cr4Accum (cpu : Cpuid) (s : MachineState) :
    Cr4Accum s.cr4 (cpu_init cpu s) := by
  have a0 : Cr4Accum s.cr4 (sseStep s) := by
    constructor
    · intro b hb
      exact hb
    · intro v hv b hb
      simp [sseStep, cr4Writes] at hv
  have a1 := cr4Accum_orCr4 (3 <<< 9) s.cr4 _ a0
  have a2 := cr4Accum_orCr4 (1 <<< 2) s.cr4 _ a1
  have a3 : Cr4Accum s.cr4
      (smepStep cpu (orCr4 (1 <<< 2) (orCr4 (3 <<< 9) (sseStep s)))) := by
    unfold smepStep
    split
    · exact cr4Accum_orCr4 _ s.cr4 _ a2
    · exact a2
  have a4 : Cr4Accum s.cr4
      (smapStep cpu (smepStep cpu (orCr4 (1 <<< 2) (orCr4 (3 <<< 9) (sseStep s))))) := by
    unfold smapStep
    split
    · refine cr4Accum_keep s.cr4 _ _ ?_ ?_ (cr4Accum_orCr4 (1 <<< 21) s.cr4 _ a3)
      · rfl
      · exact cr4Writes_clac _
    · exact a3
  have a5 : Cr4Accum s.cr4
      (umipStep cpu (smapStep cpu (smepStep cpu
        (orCr4 (1 <<< 2) (orCr4 (3 <<< 9) (sseStep s)))))) := by
    unfold umipStep
    split
    · exact cr4Accum_orCr4 _ s.cr4 _ a4
    · exact a4
  have a6 : Cr4Accum s.cr4
      (patStep (umipStep cpu (smapStep cpu (smepStep cpu
        (orCr4 (1 <<< 2) (orCr4 (3 <<< 9) (sseStep s))))))) := by
    refine cr4Accum_keep s.cr4 _ _ ?_ ?_ a5
    · rfl
    · exact cr4Writes_msr _ _ _ _
  show Cr4Accum s.cr4 (xsaveStep cpu _)
  unfold xsaveStep
  split
  · refine cr4Accum_keep s.cr4 _ _ ?_ ?_ (cr4Accum_orCr4 (1 <<< 18) s.cr4 _ a6)
    · rfl
    · exact cr4Writes_xcr _ _ _
  · refine cr4Accum_keep s.cr4 _ _ ?_ ?_ a6
    · rfl
    · rfl

/-- C9: cpu_init only ever ORs bits into CR4: every bit that is set in
the initial CR4 value or in any CR4 value written during the sequence is
still set in the final CR4 value. -/
theorem C9_cr4_monotone (cpu : Cpuid) (s : MachineState) (b : Nat)
    (h : s.cr4.testBit b = true ∨
      ∃ v ∈ cr4Writes (cpu_init cpu s).2, v.testBit b = true) :
    (cpu_init cpu s).1.cr4.testBit b = true := by
  have hacc := cpu_init_cr4Accum cpu s
  rcases h with hinit | ⟨v, hv, hb⟩
  · exact hacc.1 b hinit
  · exact hacc.2 v hv b hb

/-- Witness for C9: bit 9, installed by the first CR4 write, is still
set when cpu_init finishes on the featureless capability set. -/
theorem C9_cr4_monotone_witness : (cpu_init cpuMin ms0).1.cr4.testBit 9 = true :=
  C9_cr4_monotone cpuMin ms0 9 (by decide)

end Polaris
